import Mathlib

/-!
# Elevator controller: formal model

Shallow embedding of the elevator-car controller (`CANModule.cpp` /
`ElevatorController.cpp`): the motion step `Move`, the floor estimator
`checkCurrentFloor`, the CAN receive path `receiveCAN`, and the control
cycle `ElevatorController::loop` as a step function on an explicit state,
together with proofs about them.

Machine integers are modelled over `Int`: every quantity involved (sensor
distances in millimetres bounded by `MINHEIGHT`/`MAXHEIGHT`, floor
setpoints, single payload bytes, DAC levels up to 1023) stays far inside
the 16-bit range of the target, so no wrap-around is reachable in the
modelled domain.
-/

/-- Configuration constants of the controller.  They are defined in a
header file that is not part of the sources (only `CANModule.cpp` is);
the model therefore keeps them symbolic and quantifies theorems over
them.  `FLOOR1`, `FLOOR2`, `FLOOR3` are the single-byte floor codes sent
on the wire; `FLOOR1_SP`, `FLOOR2_SP`, `FLOOR3_SP` the corresponding
setpoint distances; `MINHEIGHT`/`MAXHEIGHT` bound the valid sensor band;
`SETPOINT_TOLERANCE` is the dead-band half-width. -/
structure Params where
  FLOOR1 : Int
  FLOOR2 : Int
  FLOOR3 : Int
  FLOOR1_SP : Int
  FLOOR2_SP : Int
  FLOOR3_SP : Int
  MINHEIGHT : Int
  MAXHEIGHT : Int
  SETPOINT_TOLERANCE : Int
deriving DecidableEq

/-- Modelled from the spec: concrete values for the header constants,
which are not under the sources.  The spec fixes no numeric values, so
these are chosen as distinct byte codes and setpoints whose floor bands
lie strictly inside the open valid band, as the source comment in
`Move` requires ("make sure Floor 1 is above MINHEIGHT and Floor 3 is
below MAXHEIGHT"). -/
def p0 : Params :=
  { FLOOR1 := 1
    FLOOR2 := 2
    FLOOR3 := 3
    FLOOR1_SP := 100
    FLOOR2_SP := 200
    FLOOR3_SP := 300
    MINHEIGHT := 50
    MAXHEIGHT := 400
    SETPOINT_TOLERANCE := 5 }

/-- Result of one `ElevatorController::Move` call: the value written to
the DAC by `DM.transferDAC`, and the distance written to the LCD by
`LCDM.loop(m_dist)` (`none` when the branch writing it is not taken). -/
structure MoveOut where
  drive : Int
  lcdDist : Option Int
deriving DecidableEq

/-- Source function `ElevatorController::Move(uint16_t setpoint)`.  `dist` is the value
returned by `DSM.sensor.getDistance()` this cycle (stored into
`m_dist`).  `shape` models the floating-point damping stage
`difference * A * exp(-a * abs(difference))` truncated back to `int`;
the header constants `A`, `DAMPENER`, `diffMax` are not under the
sources, so the damping is kept as a function parameter.  The final
clamp reproduces the source exactly: only `difference > 1023` is
clamped, there is no lower clamp. -/
def Move (p : Params) (shape : Int → Int) (dist setpoint : Int) : MoveOut :=
  if p.MINHEIGHT < dist ∧ dist < p.MAXHEIGHT then
    let difference : Int := dist - setpoint
    let difference := if |difference| ≤ p.SETPOINT_TOLERANCE then 0 else difference
    let difference := shape difference
    let difference := if difference > 1023 then 1023 else difference
    { drive := difference, lcdDist := some dist }
  else
    { drive := 0, lcdDist := none }

/-- Source function `ElevatorController::checkCurrentFloor()` as a function of `m_dist`
and the previous `m_currentFloor` (returned unchanged when no floor band
matches).  The margin `10` added to `SETPOINT_TOLERANCE` is a literal in
the source. -/
def checkCurrentFloor (p : Params) (dist prev : Int) : Int :=
  if p.FLOOR1_SP - (p.SETPOINT_TOLERANCE + 10) ≤ dist ∧
      dist ≤ p.FLOOR1_SP + (p.SETPOINT_TOLERANCE + 10) then
    p.FLOOR1
  else if p.FLOOR2_SP - (p.SETPOINT_TOLERANCE + 10) ≤ dist ∧
      dist ≤ p.FLOOR2_SP + (p.SETPOINT_TOLERANCE + 10) then
    p.FLOOR2
  else if p.FLOOR3_SP - (p.SETPOINT_TOLERANCE + 10) ≤ dist ∧
      dist ≤ p.FLOOR3_SP + (p.SETPOINT_TOLERANCE + 10) then
    p.FLOOR3
  else
    prev

/-- Reference current-floor estimator, written from the words of the
spec (section 4.5): for each floor code in the fixed priority order
FLOOR1, FLOOR2, FLOOR3, if the distance falls within that floor's
setpoint plus or minus `SETPOINT_TOLERANCE + MARGIN`, return that code;
if none match, return `prev` unchanged. -/
def estimateRef (p : Params) (MARGIN : Int) (dist prev : Int) : Int :=
  if |dist - p.FLOOR1_SP| ≤ p.SETPOINT_TOLERANCE + MARGIN then p.FLOOR1
  else if |dist - p.FLOOR2_SP| ≤ p.SETPOINT_TOLERANCE + MARGIN then p.FLOOR2
  else if |dist - p.FLOOR3_SP| ≤ p.SETPOINT_TOLERANCE + MARGIN then p.FLOOR3
  else prev

/-- Envelope and first data byte of a received CAN message, as read by
`mcp2515.readMsgBuf(&RxID, &len, rxdata)`.  `rxdata0` is whatever byte
sits in `rxdata[0]` after the read (for a remote request frame the
buffer holds no fresh payload, but the source still inspects it). -/
structure RxFrame where
  RxID : Nat
  rxdata0 : Int
deriving DecidableEq

/-- Remote-request-frame test from the source:
`(RxID & 0x40000000) == 0x40000000`. -/
def isRemoteRequest (f : RxFrame) : Bool :=
  f.RxID &&& 0x40000000 == 0x40000000

/-- Extended-identifier test from the source:
`(RxID & 0x80000000) == 0x80000000`. -/
def isExtendedID (f : RxFrame) : Bool :=
  f.RxID &&& 0x80000000 == 0x80000000

/-- The control-relevant state touched by `CANModule::receiveCAN`: the
`setpoint` member of `CANModule` and the text on line 0 of the LCD. -/
structure CANState where
  setpoint : Int
  lcdLine0 : String
deriving DecidableEq

/-- Source function `CANModule::receiveCAN(LCD lcd)` restricted to its state effect.
In the source, `isRemoteRequest`/`isExtendedID` on the envelope select
only which `Serial.print` lines run; the setpoint-update block that
follows is unconditional and branches on `rxdata[0]` alone, so the
state effect does not consult `RxID`.  On an unknown byte the source
does nothing ("Do nothing on unknown command"). -/
def receiveCAN (p : Params) (f : RxFrame) (s : CANState) : CANState :=
  if f.rxdata0 = p.FLOOR1 then
    { setpoint := p.FLOOR1_SP, lcdLine0 := "Floor 1" }
  else if f.rxdata0 = p.FLOOR2 then
    { setpoint := p.FLOOR2_SP, lcdLine0 := "Floor 2" }
  else if f.rxdata0 = p.FLOOR3 then
    { setpoint := p.FLOOR3_SP, lcdLine0 := "Floor 3" }
  else
    s

/-- State of the `ElevatorController` object (together with the
`CANModule` members it owns and the LCD text), plus two observation
fields: `sent` is the trace of first payload bytes handed to
`mcp2515.sendMsgBuf` so far (the send is fire-and-forget, so the byte is
on the wire regardless of the reported status), and `lastDrive` is the
value passed to `DM.transferDAC` in the most recent cycle. -/
structure ECState where
  can : CANState
  txByte : Int
  m_currentFloor : Int
  m_dist : Int
  lcdDist : Option Int
  sent : List Int
  lastDrive : Int
deriving DecidableEq

/-- Environment of one iteration of `ElevatorController::loop`: the two
sticky flags as sampled at the top of the cycle, the message read by
`readMsgBuf` when `flagRecv` is set, and this cycle's sensor reading. -/
structure CycleInput where
  flagRecv : Bool
  frame : RxFrame
  flagTx : Bool
  dist : Int
deriving DecidableEq

/-- Source function `ElevatorController::setup()`: default floor 1 is displayed, the
transmit buffer is preloaded with `FLOOR1`, the setpoint defaults to
`FLOOR1_SP`, and `m_currentFloor` is set to `0` (the comment in the
source reads "Unknown").  `m_dist` starts zero-initialized. -/
def setupState (p : Params) : ECState :=
  { can := { setpoint := p.FLOOR1_SP, lcdLine0 := "Floor 1" }
    txByte := p.FLOOR1
    m_currentFloor := 0
    m_dist := 0
    lcdDist := none
    sent := []
    lastDrive := 0 }

/-- Source function `ElevatorController::loop()`, one iteration, in source order:
if `flagRecv`, clear it and run `CM.receiveCAN(LCDM)`; if `flagTx`,
clear it, run `CM.setTxdata(m_currentFloor)` and `CM.transmitCAN()`
(which sends `txdata[0]`); then `Move(CM.getSetpoint())`; then
`checkCurrentFloor()`. -/
def loopStep (p : Params) (shape : Int → Int) (inp : CycleInput)
    (s : ECState) : ECState :=
  let s1 := if inp.flagRecv then
    { s with can := receiveCAN p inp.frame s.can } else s
  let s2 := if inp.flagTx then
    { s1 with txByte := s1.m_currentFloor
              sent := s1.sent ++ [s1.m_currentFloor] } else s1
  let mo := Move p shape inp.dist s2.can.setpoint
  let s3 := { s2 with m_dist := inp.dist
                      lastDrive := mo.drive
                      lcdDist := match mo.lcdDist with
                        | some d => some d
                        | none => s2.lcdDist }
  { s3 with m_currentFloor := checkCurrentFloor p inp.dist s3.m_currentFloor }

/-- States of the controller reachable from `setupState` by iterating
the control cycle under arbitrary environment inputs. -/
inductive Reachable (p : Params) (shape : Int → Int) : ECState → Prop where
  | init : Reachable p shape (setupState p)
  | step : ∀ s inp, Reachable p shape s →
      Reachable p shape (loopStep p shape inp s)

/-- A byte value the controller can hold in `m_currentFloor`: one of the
three floor codes, or `0`, the startup value the source comments call
"Unknown". -/
def FloorByte (p : Params) (b : Int) : Prop :=
  b = 0 ∨ b = p.FLOOR1 ∨ b = p.FLOOR2 ∨ b = p.FLOOR3

/-! ## Basic projection lemmas about one control cycle -/

theorem loopStep_can (p : Params) (shape : Int → Int) (inp : CycleInput)
    (s : ECState) :
    (loopStep p shape inp s).can =
      if inp.flagRecv then receiveCAN p inp.frame s.can else s.can := by
  unfold loopStep
  split_ifs <;> rfl

theorem loopStep_sent (p : Params) (shape : Int → Int) (inp : CycleInput)
    (s : ECState) :
    (loopStep p shape inp s).sent =
      if inp.flagTx then s.sent ++ [s.m_currentFloor] else s.sent := by
  unfold loopStep
  split_ifs <;> rfl

theorem loopStep_currentFloor (p : Params) (shape : Int → Int)
    (inp : CycleInput) (s : ECState) :
    (loopStep p shape inp s).m_currentFloor =
      checkCurrentFloor p inp.dist s.m_currentFloor := by
  unfold loopStep
  split_ifs <;> rfl

theorem loopStep_lastDrive (p : Params) (shape : Int → Int)
    (inp : CycleInput) (s : ECState) :
    (loopStep p shape inp s).lastDrive =
      (Move p shape inp.dist
        (if inp.flagRecv then (receiveCAN p inp.frame s.can).setpoint
         else s.can.setpoint)).drive := by
  unfold loopStep
  split_ifs <;> rfl

theorem checkCurrentFloor_cases (p : Params) (dist prev : Int) :
    checkCurrentFloor p dist prev = p.FLOOR1 ∨
    checkCurrentFloor p dist prev = p.FLOOR2 ∨
    checkCurrentFloor p dist prev = p.FLOOR3 ∨
    checkCurrentFloor p dist prev = prev := by
  unfold checkCurrentFloor
  split_ifs <;> simp

theorem reachable_floor_bytes (p : Params) (shape : Int → Int)
    (s : ECState) (h : Reachable p shape s) :
    FloorByte p s.m_currentFloor ∧ ∀ b ∈ s.sent, FloorByte p b := by
  induction h with
  | init =>
      exact ⟨Or.inl rfl, by simp [setupState]⟩
  | step s inp hr ih =>
      obtain ⟨hcur, hsent⟩ := ih
      constructor
      · rw [loopStep_currentFloor]
        rcases checkCurrentFloor_cases p inp.dist s.m_currentFloor with
          h | h | h | h <;> rw [h]
        · exact Or.inr (Or.inl rfl)
        · exact Or.inr (Or.inr (Or.inl rfl))
        · exact Or.inr (Or.inr (Or.inr rfl))
        · exact hcur
      · intro b hb
        rw [loopStep_sent] at hb
        by_cases htx : inp.flagTx
        · rw [if_pos htx] at hb
          rcases List.mem_append.mp hb with hb | hb
          · exact hsent b hb
          · rcases List.mem_singleton.mp hb with rfl
            exact hcur
        · rw [if_neg htx] at hb
          exact hsent b hb

/-! ## Claim theorems -/

/-- C1: the source clamps only the positive side of the shaped drive
command (`if (difference > 1023) difference = 1023;`): whenever the
damped value for an in-band distance outside the dead-band falls below
-1023, `Move` hands it to the DAC unclamped, so `abs(DriveCommand)`
exceeds the actuator maximum 1023 and no negative-direction cap
exists. -/
theorem move_negative_drive_unclamped (p : Params) (shape : Int → Int)
    (dist sp : Int)
    (h1 : p.MINHEIGHT < dist) (h2 : dist < p.MAXHEIGHT)
    (h3 : ¬ |dist - sp| ≤ p.SETPOINT_TOLERANCE)
    (h4 : shape (dist - sp) < -1023) :
    (Move p shape dist sp).drive = shape (dist - sp) ∧
      ¬ |(Move p shape dist sp).drive| ≤ 1023 := by
  have hdr : (Move p shape dist sp).drive = shape (dist - sp) := by
    unfold Move
    rw [if_pos ⟨h1, h2⟩]
    simp only [if_neg h3]
    rw [if_neg (by omega)]
  refine ⟨hdr, ?_⟩
  rw [hdr, not_le, abs_of_neg (by omega)]
  omega

theorem move_negative_drive_unclamped_witness :
    (Move p0 (fun _ => -1472) 160 100).drive = -1472 ∧
      ¬ |(Move p0 (fun _ => -1472) 160 100).drive| ≤ 1023 := by
  have h := move_negative_drive_unclamped p0 (fun _ => -1472) 160 100
    (by decide) (by decide) (by decide) (by decide)
  simpa using h

/-- C2 counterexample: a bus message whose envelope carries the
remote-request marker (`RxID & 0x40000000` set) does not leave
`Setpoint` unchanged when the receive buffer's first byte happens to
equal a floor code: `receiveCAN` changes the setpoint from `FLOOR1_SP`
to `FLOOR2_SP`. -/
theorem remote_frame_changes_setpoint_cx :
    isRemoteRequest ⟨0x40000000, p0.FLOOR2⟩ = true ∧
      (receiveCAN p0 ⟨0x40000000, p0.FLOOR2⟩
          ⟨p0.FLOOR1_SP, "Floor 1"⟩).setpoint ≠ p0.FLOOR1_SP := by
  decide

/-- C2 (amended): the remote-request marker is consulted only for
serial logging; the state effect of `receiveCAN` on a remote request
frame is exactly that of a data frame with the same buffer byte, so
`Setpoint` is left unchanged precisely when that byte matches no floor
code. -/
theorem remote_frame_state_effect (p : Params) (f : RxFrame)
    (s : CANState) (_hrem : isRemoteRequest f = true) :
    receiveCAN p f s = receiveCAN p ⟨0, f.rxdata0⟩ s ∧
    (f.rxdata0 ≠ p.FLOOR1 → f.rxdata0 ≠ p.FLOOR2 → f.rxdata0 ≠ p.FLOOR3 →
      receiveCAN p f s = s) := by
  constructor
  · rfl
  · intro hne1 hne2 hne3
    unfold receiveCAN
    rw [if_neg hne1, if_neg hne2, if_neg hne3]

theorem remote_frame_state_effect_witness :
    receiveCAN p0 ⟨0x40000000, 255⟩ ⟨p0.FLOOR1_SP, "Floor 1"⟩ =
      ⟨p0.FLOOR1_SP, "Floor 1"⟩ := by
  exact (remote_frame_state_effect p0 ⟨0x40000000, 255⟩
    ⟨p0.FLOOR1_SP, "Floor 1"⟩ (by decide)).2 (by decide) (by decide) (by decide)

/-- C3 counterexample: in the reachable state after one cycle from
`setupState` in which the transmit flag is serviced before any in-band
sample has classified a floor, the byte sent on the wire is the startup
value `0` ("Unknown"), which is none of the three floor codes. -/
theorem startup_transmit_sends_unknown_cx :
    Reachable p0 (fun d => d)
      (loopStep p0 (fun d => d) ⟨false, ⟨0, 0⟩, true, 0⟩ (setupState p0)) ∧
    (loopStep p0 (fun d => d) ⟨false, ⟨0, 0⟩, true, 0⟩ (setupState p0)).sent
        = [0] ∧
    ¬ (0 = p0.FLOOR1 ∨ 0 = p0.FLOOR2 ∨ 0 = p0.FLOOR3) := by
  exact ⟨Reachable.step _ _ Reachable.init, by decide, by decide⟩

/-- C3 (amended): each serviced PendingTransmit event appends exactly
one byte to the wire trace, equal to the current value of
`m_currentFloor`; in every reachable state, every byte ever sent is one
of the three floor codes or the startup Unknown value 0 (and the
Unknown value can occur, namely before the first in-band sample
classifies a floor). -/
theorem transmit_byte_is_current_floor (p : Params) (shape : Int → Int) :
    (∀ inp s, inp.flagTx = true →
      (loopStep p shape inp s).sent = s.sent ++ [s.m_currentFloor]) ∧
    (∀ s, Reachable p shape s → ∀ b ∈ s.sent, FloorByte p b) := by
  constructor
  · intro inp s htx
    rw [loopStep_sent, if_pos htx]
  · intro s hs
    exact (reachable_floor_bytes p shape s hs).2

theorem transmit_byte_is_current_floor_witness :
    (loopStep p0 (fun d => d) ⟨false, ⟨0, 2⟩, true, 110⟩ (setupState p0)).sent
      = [0] := by
  have h := (transmit_byte_is_current_floor p0 (fun d => d)).1
    ⟨false, ⟨0, 2⟩, true, 110⟩ (setupState p0) rfl
  simpa [setupState] using h

/-- C4: when the measured distance is out of the valid band, the floor
re-estimation of that cycle leaves `CurrentFloor` unchanged, provided
every floor band `FLOORi_SP` plus or minus `SETPOINT_TOLERANCE + 10`
lies strictly inside the open band `(MINHEIGHT, MAXHEIGHT)` (the
placement the source comment in `Move` demands of the constants). -/
theorem out_of_range_keeps_floor (p : Params) (dist prev : Int)
    (hb1 : p.MINHEIGHT < p.FLOOR1_SP - (p.SETPOINT_TOLERANCE + 10))
    (hb2 : p.FLOOR1_SP + (p.SETPOINT_TOLERANCE + 10) < p.MAXHEIGHT)
    (hb3 : p.MINHEIGHT < p.FLOOR2_SP - (p.SETPOINT_TOLERANCE + 10))
    (hb4 : p.FLOOR2_SP + (p.SETPOINT_TOLERANCE + 10) < p.MAXHEIGHT)
    (hb5 : p.MINHEIGHT < p.FLOOR3_SP - (p.SETPOINT_TOLERANCE + 10))
    (hb6 : p.FLOOR3_SP + (p.SETPOINT_TOLERANCE + 10) < p.MAXHEIGHT)
    (hout : ¬ (p.MINHEIGHT < dist ∧ dist < p.MAXHEIGHT)) :
    checkCurrentFloor p dist prev = prev ∧
    ∀ shape inp s, inp.dist = dist →
      (loopStep p shape inp s).m_currentFloor = s.m_currentFloor := by
  have hall : ∀ q : Int, checkCurrentFloor p dist q = q := by
    intro q
    unfold checkCurrentFloor
    split_ifs <;> omega
  refine ⟨hall prev, ?_⟩
  intro shape inp s hdist
  rw [loopStep_currentFloor, hdist, hall]

theorem out_of_range_keeps_floor_witness :
    checkCurrentFloor p0 50 7 = 7 ∧
    (loopStep p0 (fun d => d) ⟨false, ⟨0, 0⟩, false, 50⟩
        (setupState p0)).m_currentFloor = 0 := by
  have h := out_of_range_keeps_floor p0 50 7 (by decide) (by decide)
    (by decide) (by decide) (by decide) (by decide) (by decide)
  exact ⟨h.1, h.2 (fun d => d) ⟨false, ⟨0, 0⟩, false, 50⟩ (setupState p0) rfl⟩

/-- C5: the drive command is 0 whenever the measured distance is out of
the valid band (fail-safe stop) and whenever the distance is within
`SETPOINT_TOLERANCE` of the setpoint (dead-band).  The hypothesis
`shape 0 = 0` records that the source damping stage
`difference * A * exp(-a * abs(difference))` is exactly 0 at
`difference = 0`, for any finite constants. -/
theorem drive_zero_out_of_range_or_deadband (p : Params)
    (shape : Int → Int) (dist sp : Int) (hsh : shape 0 = 0) :
    (¬ (p.MINHEIGHT < dist ∧ dist < p.MAXHEIGHT) →
      (Move p shape dist sp).drive = 0) ∧
    (|dist - sp| ≤ p.SETPOINT_TOLERANCE →
      (Move p shape dist sp).drive = 0) := by
  constructor
  · intro h
    unfold Move
    rw [if_neg h]
  · intro h
    unfold Move
    split_ifs with hb
    · simp only [if_pos h, hsh]
      rw [if_neg (by omega)]
    · rfl

theorem drive_zero_witness :
    (Move p0 (fun d => d) 49 300).drive = 0 ∧
      (Move p0 (fun d => d) 102 100).drive = 0 := by
  exact ⟨(drive_zero_out_of_range_or_deadband p0 (fun d => d) 49 300 rfl).1
            (by decide),
         (drive_zero_out_of_range_or_deadband p0 (fun d => d) 102 100 rfl).2
            (by decide)⟩

/-- C6: a serviced non-remote payload byte equal to a known floor code
sets the setpoint to that floor's fixed setpoint and the display to that
floor's label, and the motion step of the same cycle is computed against
the new setpoint. -/
theorem known_code_updates_setpoint (p : Params) (shape : Int → Int)
    (inp : CycleInput) (s : ECState)
    (h21 : p.FLOOR2 ≠ p.FLOOR1) (h31 : p.FLOOR3 ≠ p.FLOOR1)
    (h32 : p.FLOOR3 ≠ p.FLOOR2)
    (hrecv : inp.flagRecv = true)
    (_hrem : isRemoteRequest inp.frame = false) :
    (inp.frame.rxdata0 = p.FLOOR1 →
      (loopStep p shape inp s).can = ⟨p.FLOOR1_SP, "Floor 1"⟩ ∧
      (loopStep p shape inp s).lastDrive
        = (Move p shape inp.dist p.FLOOR1_SP).drive) ∧
    (inp.frame.rxdata0 = p.FLOOR2 →
      (loopStep p shape inp s).can = ⟨p.FLOOR2_SP, "Floor 2"⟩ ∧
      (loopStep p shape inp s).lastDrive
        = (Move p shape inp.dist p.FLOOR2_SP).drive) ∧
    (inp.frame.rxdata0 = p.FLOOR3 →
      (loopStep p shape inp s).can = ⟨p.FLOOR3_SP, "Floor 3"⟩ ∧
      (loopStep p shape inp s).lastDrive
        = (Move p shape inp.dist p.FLOOR3_SP).drive) := by
  refine ⟨fun hb => ?_, fun hb => ?_, fun hb => ?_⟩ <;>
    rw [loopStep_can, loopStep_lastDrive, if_pos hrecv, if_pos hrecv] <;>
    constructor <;> simp [receiveCAN, hb, h21, h31, h32]

theorem known_code_updates_setpoint_witness :
    (loopStep p0 (fun d => d) ⟨true, ⟨0, 2⟩, false, 160⟩
        (setupState p0)).can = ⟨200, "Floor 2"⟩ ∧
    (loopStep p0 (fun d => d) ⟨true, ⟨0, 2⟩, false, 160⟩
        (setupState p0)).lastDrive = (Move p0 (fun d => d) 160 200).drive := by
  have h := (known_code_updates_setpoint p0 (fun d => d)
    ⟨true, ⟨0, 2⟩, false, 160⟩ (setupState p0)
    (by decide) (by decide) (by decide) rfl (by decide)).2.1 rfl
  exact h

/-- C7: a serviced payload byte matching none of the three floor codes
leaves the receive path without any state change: `receiveCAN` is the
identity, and the whole cycle behaves as if no message had been pending
(so setpoint, display text and current floor are all unchanged by the
receive servicing). -/
theorem unknown_code_ignored (p : Params) (shape : Int → Int)
    (inp : CycleInput) (s : ECState)
    (h1 : inp.frame.rxdata0 ≠ p.FLOOR1)
    (h2 : inp.frame.rxdata0 ≠ p.FLOOR2)
    (h3 : inp.frame.rxdata0 ≠ p.FLOOR3) :
    receiveCAN p inp.frame s.can = s.can ∧
    loopStep p shape inp s
      = loopStep p shape { inp with flagRecv := false } s := by
  have hrc : ∀ cs, receiveCAN p inp.frame cs = cs := by
    intro cs
    unfold receiveCAN
    rw [if_neg h1, if_neg h2, if_neg h3]
  refine ⟨hrc s.can, ?_⟩
  unfold loopStep
  cases hfr : inp.flagRecv <;> simp [hfr, hrc s.can]

theorem unknown_code_ignored_witness :
    loopStep p0 (fun d => d) ⟨true, ⟨0, 255⟩, false, 0⟩ (setupState p0)
      = loopStep p0 (fun d => d) ⟨false, ⟨0, 255⟩, false, 0⟩ (setupState p0) := by
  exact (unknown_code_ignored p0 (fun d => d) ⟨true, ⟨0, 255⟩, false, 0⟩
    (setupState p0) (by decide) (by decide) (by decide)).2

/-- C8: the source floor estimator coincides with the reference
estimator written from the spec, with MARGIN = 10 (the literal added to
`SETPOINT_TOLERANCE` in the source); in particular, when the distance
falls in no floor band the previous floor is returned unchanged, for
any previous floor. -/
theorem checkCurrentFloor_eq_estimateRef (p : Params) (dist prev : Int) :
    checkCurrentFloor p dist prev = estimateRef p 10 dist prev ∧
    (¬ |dist - p.FLOOR1_SP| ≤ p.SETPOINT_TOLERANCE + 10 →
     ¬ |dist - p.FLOOR2_SP| ≤ p.SETPOINT_TOLERANCE + 10 →
     ¬ |dist - p.FLOOR3_SP| ≤ p.SETPOINT_TOLERANCE + 10 →
      checkCurrentFloor p dist prev = prev) := by
  constructor
  · simp only [checkCurrentFloor, estimateRef, abs_le]
    split_ifs <;> omega
  · intro n1 n2 n3
    rw [abs_le] at n1 n2 n3
    simp only [checkCurrentFloor]
    split_ifs <;> omega

theorem checkCurrentFloor_eq_estimateRef_witness :
    checkCurrentFloor p0 130 7 = estimateRef p0 10 130 7 ∧
      checkCurrentFloor p0 130 7 = 7 := by
  exact ⟨(checkCurrentFloor_eq_estimateRef p0 130 7).1,
         (checkCurrentFloor_eq_estimateRef p0 130 7).2
           (by decide) (by decide) (by decide)⟩

/-- C9: consequences of the fixed phase order of one control cycle:
the motion step uses the setpoint as updated by this cycle's receive
servicing; the transmit servicing sends the floor value from before
this cycle's re-estimation; and the re-estimation comes last, applied
to this cycle's distance sample and the pre-cycle floor. -/
theorem loop_phase_order (p : Params) (shape : Int → Int)
    (inp : CycleInput) (s : ECState) (hrecv : inp.flagRecv = true) :
    (loopStep p shape inp s).lastDrive
        = (Move p shape inp.dist
            (receiveCAN p inp.frame s.can).setpoint).drive ∧
    (inp.flagTx = true →
      (loopStep p shape inp s).sent = s.sent ++ [s.m_currentFloor]) ∧
    (loopStep p shape inp s).m_currentFloor
        = checkCurrentFloor p inp.dist s.m_currentFloor := by
  refine ⟨?_, ?_, loopStep_currentFloor p shape inp s⟩
  · rw [loopStep_lastDrive, if_pos hrecv]
  · intro htx
    rw [loopStep_sent, if_pos htx]

theorem loop_phase_order_witness :
    (loopStep p0 (fun d => d) ⟨true, ⟨0, 3⟩, true, 310⟩
        (setupState p0)).lastDrive
      = (Move p0 (fun d => d) 310
          (receiveCAN p0 ⟨0, 3⟩ (setupState p0).can).setpoint).drive ∧
    (loopStep p0 (fun d => d) ⟨true, ⟨0, 3⟩, true, 310⟩
        (setupState p0)).sent = [0] ∧
    (loopStep p0 (fun d => d) ⟨true, ⟨0, 3⟩, true, 310⟩
        (setupState p0)).m_currentFloor = checkCurrentFloor p0 310 0 := by
  have h := loop_phase_order p0 (fun d => d) ⟨true, ⟨0, 3⟩, true, 310⟩
    (setupState p0) rfl
  exact ⟨h.1, by simpa [setupState] using h.2.1 rfl, h.2.2⟩

/-- C10: the in-range test of `Move` uses strict inequalities, so a
distance exactly equal to `MINHEIGHT` or to `MAXHEIGHT` takes the
out-of-range branch: the drive command is 0 and no distance is written
to the display; the valid band is open at both ends. -/
theorem boundary_distance_is_out_of_range (p : Params)
    (shape : Int → Int) (sp : Int) :
    Move p shape p.MINHEIGHT sp = ⟨0, none⟩ ∧
    Move p shape p.MAXHEIGHT sp = ⟨0, none⟩ := by
  constructor <;> · unfold Move; rw [if_neg (by omega)]
